import Mathlib

/-!
Verification of the `life` capsule (`src/capsules/core/src/life.rs`), a
minimal Tock syscall driver. The driver is stateless: `command` maps a
command number and arguments to a `CommandReturn`, and `allocate_grant`
always succeeds.
-/

namespace Life

/-- The kernel's shared system-wide error vocabulary (`kernel::ErrorCode`).
The driver only ever produces `INVAL` and `NOSUPPORT`; the other
constructors are part of the shared enumeration ("at minimum: invalid
argument, operation not supported"). -/
inductive ErrorCode where
  | FAIL
  | OFF
  | RESERVE
  | ALREADY
  | BUSY
  | INVAL
  | SIZE
  | CANCEL
  | NOMEM
  | NOSUPPORT
  | NODEVICE
  | UNINSTALLED
  | NOACK
  deriving DecidableEq, Repr

/-- `kernel::syscall::CommandReturn`: the discriminated result of a
`command` invocation. `successU32` carries one 32-bit payload, represented
as a `Nat` reduced modulo `2^32` at construction sites. -/
inductive CommandReturn where
  | success
  | successU32 (v : Nat)
  | failure (e : ErrorCode)
  deriving DecidableEq, Repr

/-- `kernel::ProcessId`: an opaque handle identifying the calling process.
Modelled as a wrapped natural number; the driver never inspects it. -/
structure ProcessId where
  id : Nat
  deriving DecidableEq, Repr

/-- `kernel::process::Error`: the error type of `allocate_grant`.
The life driver never produces one; the constructors model the kernel's
process-error vocabulary (e.g. resource exhaustion). -/
inductive ProcessError where
  | NoSuchApp
  | InactiveApp
  | KernelError
  | AlreadyInUse
  | AddressOutOfBounds
  deriving DecidableEq, Repr

/-- `LifeDriver`: a unit struct with no fields (`pub struct LifeDriver;`). -/
structure LifeDriver where
  deriving DecidableEq, Repr

/-- `LifeDriver::new()`: constructs the (field-less) driver value. -/
def LifeDriver.new : LifeDriver := {}

/-- The `u32` cast in `42 as u32`: reduction modulo `2^32`. -/
def u32cast (n : Nat) : Nat := n % 2 ^ 32

/-- `LifeDriver::command` from `life.rs`:
`0` returns `success_u32(42 as u32)`; `1` returns `failure(INVAL)` when
`data != 42` and `success()` otherwise; any other command number returns
`failure(NOSUPPORT)`. The second argument and the `ProcessId` are bound
but unused, exactly as in the source (`_: usize, _: ProcessId`). -/
def LifeDriver.command (_self : LifeDriver) (command_num : Nat) (data : Nat)
    (_arg1 : Nat) (_processid : ProcessId) : CommandReturn :=
  match command_num with
  | 0 => CommandReturn.successU32 (u32cast 42)
  | 1 =>
      if data ≠ 42 then
        CommandReturn.failure ErrorCode.INVAL
      else
        CommandReturn.success
  | _ => CommandReturn.failure ErrorCode.NOSUPPORT

/-- `LifeDriver::allocate_grant`: unconditionally `Ok(())`. -/
def LifeDriver.allocate_grant (_self : LifeDriver) (_processid : ProcessId) :
    Except ProcessError Unit :=
  Except.ok ()

/-- A single syscall reaching the driver: either a `command` invocation or
an `allocate_grant` request. -/
inductive Call where
  | cmd (command_num data arg1 : Nat) (p : ProcessId)
  | grant (p : ProcessId)
  deriving DecidableEq, Repr

/-- The value a single call returns. -/
inductive Ret where
  | cmdRet (r : CommandReturn)
  | grantRet (r : Except ProcessError Unit)
  deriving Repr

/-- Executing one call against the driver: produces the (possibly updated)
driver value and the returned result. Both entry points take `&self` and
mutate nothing, so the driver value is passed through unchanged. -/
def step (d : LifeDriver) : Call → LifeDriver × Ret
  | Call.cmd cn a0 a1 p => (d, Ret.cmdRet (d.command cn a0 a1 p))
  | Call.grant p => (d, Ret.grantRet (d.allocate_grant p))

/-- Executing a sequence of calls, threading the driver value through. -/
def runTrace (d : LifeDriver) : List Call → LifeDriver × List Ret
  | [] => (d, [])
  | c :: cs =>
      let (d', r) := step d c
      let (d'', rs) := runTrace d' cs
      (d'', r :: rs)

end Life

open Life

/-- C1: for every `data`, `arg1` and calling process, command 0 returns
`successU32 42` (the 32-bit payload 42). -/
theorem C1_command0_returns_42 (d : LifeDriver) (a0 a1 : Nat) (p : ProcessId) :
    d.command 0 a0 a1 p = CommandReturn.successU32 42 := rfl

/-- C2: command 1 returns `success` exactly when `data = 42`, and returns
`failure INVAL` exactly when `data ≠ 42`. -/
theorem C2_command1_validates_42 (d : LifeDriver) (a0 a1 : Nat) (p : ProcessId) :
    (d.command 1 a0 a1 p = CommandReturn.success ↔ a0 = 42) ∧
    (d.command 1 a0 a1 p = CommandReturn.failure ErrorCode.INVAL ↔ a0 ≠ 42) := by
  by_cases h : a0 = 42
  · subst h
    simp [LifeDriver.command]
  · simp [LifeDriver.command, h]

/-- C3: every command number other than 0 and 1 yields `failure NOSUPPORT`,
for all argument values and process identities. -/
theorem C3_unknown_command_nosupport (d : LifeDriver) (cn a0 a1 : Nat)
    (p : ProcessId) (h0 : cn ≠ 0) (h1 : cn ≠ 1) :
    d.command cn a0 a1 p = CommandReturn.failure ErrorCode.NOSUPPORT := by
  unfold LifeDriver.command
  match cn, h0, h1 with
  | n + 2, _, _ => rfl

/-- Witness for C3 at the concrete input `command(2, 0, 0, P0)`. -/
theorem C3_witness :
    LifeDriver.new.command 2 0 0 ⟨0⟩ = CommandReturn.failure ErrorCode.NOSUPPORT :=
  C3_unknown_command_nosupport LifeDriver.new 2 0 0 ⟨0⟩ (by decide) (by decide)

/-- C4: `allocate_grant` returns `Ok(())` for every driver value and every
calling process identity; it can never return an error. -/
theorem C4_allocate_grant_always_ok (d : LifeDriver) (p : ProcessId) :
    d.allocate_grant p = Except.ok () := rfl

/-- C5: the result of `command` is a pure function of
`(command_num, data)`: two invocations agreeing on those but differing in
`arg1` and caller identity return identical results. -/
theorem C5_result_ignores_arg1_and_caller (d d' : LifeDriver) (cn a0 : Nat)
    (a1 a1' : Nat) (p p' : ProcessId) :
    d.command cn a0 a1 p = d'.command cn a0 a1' p' := by
  unfold LifeDriver.command
  match cn with
  | 0 => rfl
  | 1 => rfl
  | n + 2 => rfl

/-- C6: executing any sequence of calls leaves the driver value unchanged,
and every call's result is a function of that call alone: the trace's
outputs are the pointwise image of its calls, independent of order and of
any interleaved calls. -/
theorem C6_stateless_trace (d : LifeDriver) (cs : List Call) :
    runTrace d cs = (d, cs.map (fun c => (step d c).2)) := by
  induction cs with
  | nil => rfl
  | cons c cs ih =>
      simp only [runTrace, List.map_cons]
      rw [show step d c = (d, (step d c).2) from by cases c <;> rfl]
      simp [ih]

/-- C7: whenever `command` returns a failure, the error tag is `INVAL` or
`NOSUPPORT`; no other error code is ever produced. -/
theorem C7_failure_codes (d : LifeDriver) (cn a0 a1 : Nat) (p : ProcessId)
    (e : ErrorCode) (h : d.command cn a0 a1 p = CommandReturn.failure e) :
    e = ErrorCode.INVAL ∨ e = ErrorCode.NOSUPPORT := by
  unfold LifeDriver.command at h
  match cn, h with
  | 0, h => exact absurd h (by simp)
  | 1, h =>
      by_cases h42 : a0 ≠ 42
      · simp only [if_pos h42, CommandReturn.failure.injEq] at h
        exact Or.inl h.symm
      · simp [if_neg h42] at h
  | n + 2, h =>
      simp only [CommandReturn.failure.injEq] at h
      exact Or.inr h.symm

/-- Witness for C7 at the failing input `command(1, 7, 0, P0)`. -/
theorem C7_witness :
    ErrorCode.INVAL = ErrorCode.INVAL ∨ ErrorCode.INVAL = ErrorCode.NOSUPPORT :=
  C7_failure_codes LifeDriver.new 1 7 0 ⟨0⟩ ErrorCode.INVAL (by decide)

/-- C8: both entry points are total and non-corrupting: every call yields
a result value, and the driver value afterwards is the one before. -/
theorem C8_total_no_corruption (d : LifeDriver) (c : Call) :
    ∃ r : Ret, step d c = (d, r) := by
  cases c with
  | cmd cn a0 a1 p => exact ⟨Ret.cmdRet (d.command cn a0 a1 p), rfl⟩
  | grant p => exact ⟨Ret.grantRet (d.allocate_grant p), rfl⟩

/-- C9: `new()` takes no parameters and is infallible, and the instance it
produces is the unique (field-less, unit-like) driver value: every
`LifeDriver` equals `LifeDriver.new`. -/
theorem C9_new_unit (d : LifeDriver) : d = LifeDriver.new := rfl

/-- C10: the payload answered by command 0 is exactly the value command 1
accepts: if `command(0, x, y, P)` returns `successU32 v`, then
`command(1, v, z, P)` returns `success`. -/
theorem C10_roundtrip (d : LifeDriver) (x y z v : Nat) (p : ProcessId)
    (h : d.command 0 x y p = CommandReturn.successU32 v) :
    d.command 1 v z p = CommandReturn.success := by
  have hv : v = 42 := by
    have h42 : d.command 0 x y p = CommandReturn.successU32 42 := rfl
    rw [h42] at h
    exact (CommandReturn.successU32.injEq _ _).mp h.symm
  simp [LifeDriver.command, hv]

/-- Witness for C10: `command(0, 5, 6, P0)` answers `successU32 42`, and
`command(1, 42, 7, P0)` then returns `success`. -/
theorem C10_witness :
    LifeDriver.new.command 1 42 7 ⟨0⟩ = CommandReturn.success :=
  C10_roundtrip LifeDriver.new 5 6 7 42 ⟨0⟩ (by decide)
